import Mathlib

/-!
# Verification of the rentacar rental-lifecycle engine

Shallow embedding of the car-rental domain model (`src/Classes/Vehicule.py`,
`Customer.py`, `Rental.py`, `CarRentalSystem.py`) and proofs about its
operations.

Modelling conventions:
* `datetime` values are integers counting hours; Python's
  `(b - a).days` (floor division of the elapsed time by one day) becomes
  `Int.fdiv (b - a) 24`.
* Money (`daily_rate`, costs, penalties) is `ℚ`, so the arithmetic of the
  source (`* 0.5`, sums, a division for the average) is exact.
* Python dictionaries keyed by id become lists of records carrying their id;
  lookup is `List.find?` on the id.  Python object references from a rental
  to its vehicle/customer become the stored ids, resolved in the registry.
* A Python method that mutates `self` and may `raise` becomes a function
  returning the final state *and* an `Except`: mutations performed before a
  raise persist, exactly as in Python.
* `datetime.now()` defaults are resolved by the caller: operations take the
  already-resolved date as an argument.
* The customer's `rental_history` (a list of rental object references used
  only for its length and for `total_spent` accumulation) stores rental ids.
* Wall-clock fields that no operation reads back (`creation_date`,
  `registration_date`, maintenance timestamps) are omitted.
-/

/-- Vehicle states, from `Vehicule.AVAILABLE/RENTED/MAINTENANCE/RESERVED`. -/
inductive VehicleState where
  | available
  | rented
  | maintenance
  | reserved
deriving DecidableEq, Repr

/-- The subclass-specific payload: `Car(num_doors, fuel_type)`,
`Truck(payload_capacity)`, `Motorcycle(engine_cc)`. -/
inductive VehicleKind where
  | car (num_doors : Nat) (fuel_type : String)
  | truck (payload_capacity : ℚ)
  | motorcycle (engine_cc : Nat)
deriving DecidableEq, Repr

/-- A vehicle (`Vehicule` and its subclasses in `src/Classes/Vehicule.py`). -/
structure Vehicule where
  vehicle_id : Nat
  brand : String
  model : String
  category : String
  daily_rate : ℚ
  state : VehicleState
  rental_count : Nat
  kind : VehicleKind
deriving DecidableEq, Repr

/-- `Car.MIN_AGE` -/
def Car.MIN_AGE : Nat := 17

/-- `Truck.MIN_AGE` -/
def Truck.MIN_AGE : Nat := 21

/-- `Motorcycle.MIN_AGE` -/
def Motorcycle.MIN_AGE : Nat := 18

/-- `is_eligible_for_customer`, dispatched on the concrete subclass as in the
source (each subclass compares the age with its own `MIN_AGE`). -/
def Vehicule.is_eligible_for_customer (v : Vehicule) (customer_age : Nat) : Bool :=
  match v.kind with
  | .car _ _ => Car.MIN_AGE ≤ customer_age
  | .truck _ => Truck.MIN_AGE ≤ customer_age
  | .motorcycle _ => Motorcycle.MIN_AGE ≤ customer_age

/-- `Vehicule.is_available` -/
def Vehicule.is_available (v : Vehicule) : Bool :=
  v.state = VehicleState.available

/-- `Vehicule.set_state` (unconditional transition). -/
def Vehicule.set_state (v : Vehicule) (new_state : VehicleState) : Vehicule :=
  { v with state := new_state }

/-- `Vehicule.increment_rental_count` -/
def Vehicule.increment_rental_count (v : Vehicule) : Vehicule :=
  { v with rental_count := v.rental_count + 1 }

/-- `Customer.CAR = "B"` -/
def Customer.CAR : String := "B"

/-- `Customer.TRUCK = "C"` -/
def Customer.TRUCK : String := "C"

/-- `Customer.MOTORCYCLE = "A"` -/
def Customer.MOTORCYCLE : String := "A"

/-- A customer (`src/Classes/Customer.py`).  `rental_history` stores the ids
of the rentals appended by `add_rental_to_history`. -/
structure Customer where
  customer_id : Nat
  first_name : String
  last_name : String
  age : Nat
  license_type : String
  rental_history : List Nat
  total_spent : ℚ
deriving DecidableEq, Repr

/-- `Customer.get_rental_count` -/
def Customer.get_rental_count (c : Customer) : Nat :=
  c.rental_history.length

/-- `Customer.can_rent_vehicle`: age eligibility via the vehicle's dispatch,
then the license check dispatched on the category string; unknown category
falls through to `False`. -/
def Customer.can_rent_vehicle (c : Customer) (v : Vehicule) : Bool :=
  if v.is_eligible_for_customer c.age = false then false
  else if v.category = "car" ∨ v.category = "van" then
    decide (c.license_type = Customer.CAR ∨ c.license_type = Customer.TRUCK)
  else if v.category = "truck" then
    decide (c.license_type = Customer.TRUCK)
  else if v.category = "bike" ∨ v.category = "scooter" then
    decide (c.license_type = Customer.MOTORCYCLE)
  else
    false

/-- Rental statuses, from `Rental.ACTIVE/COMPLETED/CANCELLED`. -/
inductive RentalStatus where
  | active
  | completed
  | cancelled
deriving DecidableEq, Repr

/-- The errors the engine raises (each constructor is one distinct `raise`
site of the source; the registry raises `ValueError` with a message, the
spec names them `NotFoundError`, `InvalidStateError`, …). -/
inductive RErr where
  | customerNotFound (customer_id : Nat)
  | vehicleNotFound (vehicle_id : Nat)
  | rentalNotFound (rental_id : Nat)
  | vehicleNotAvailable (vehicle_id : Nat)
  | cannotRent (customer_id : Nat)
  | startNotBeforeEnd
  | alreadyReserved (vehicle_id : Nat)
  | unknownCategory (category : String)
  | cannotCancelCompleted
  | endNotAfterStart
deriving DecidableEq, Repr

deriving instance DecidableEq for Except

/-- Python's `(b - a).days`: whole days between two hour-stamps, flooring
(`timedelta.days` floors toward minus infinity, as `Int.fdiv` does). -/
def daysBetween (a b : Int) : Int :=
  Int.fdiv (b - a) 24

/-- `Rental.LATE_RETURN_PENALTY_PERCENT = 0.5` -/
def Rental.LATE_RETURN_PENALTY_PERCENT : ℚ := 1 / 2

/-- A rental (`src/Classes/Rental.py`).  `customer_id` / `vehicle_id` stand
for the object references held by the Python rental. -/
structure Rental where
  rental_id : Nat
  customer_id : Nat
  vehicle_id : Nat
  start_date : Int
  end_date : Int
  actual_return_date : Option Int
  status : RentalStatus
  total_cost : ℚ
  late_return_penalty : ℚ
deriving DecidableEq, Repr

/-- `Rental._calculate_total_cost`: duration in whole days, a zero-day
duration billed as one day, times the vehicle's daily rate. -/
def Rental.calculate_total_cost (daily_rate : ℚ) (start_date end_date : Int) : ℚ :=
  let duration := daysBetween start_date end_date
  let duration := if duration = 0 then 1 else duration
  daily_rate * (duration : ℚ)

/-- `Rental.__init__`: rejects `end_date <= start_date`, otherwise builds the
active rental with its initial cost. -/
def Rental.init (rental_id customer_id vehicle_id : Nat) (daily_rate : ℚ)
    (start_date end_date : Int) : Except RErr Rental :=
  if end_date ≤ start_date then
    .error .endNotAfterStart
  else
    .ok
      { rental_id := rental_id
        customer_id := customer_id
        vehicle_id := vehicle_id
        start_date := start_date
        end_date := end_date
        actual_return_date := none
        status := .active
        total_cost := Rental.calculate_total_cost daily_rate start_date end_date
        late_return_penalty := 0 }

/-- The pure part of `Rental.complete_rental` (the mutations of `self`):
records the return date, marks the rental completed, and adds the late
penalty when the return is after the agreed end.  `daily_rate` is the rate
read through `self.vehicle`; the side effects on the vehicle and the
customer are applied by the registry operation below.  There is no status
check: the source completes a rental unconditionally. -/
def Rental.complete (r : Rental) (daily_rate : ℚ) (actual_return_date : Int) : Rental :=
  let r1 := { r with actual_return_date := some actual_return_date,
                     status := RentalStatus.completed }
  if r.end_date < actual_return_date then
    let late_days := daysBetween r.end_date actual_return_date
    let daily_penalty := daily_rate * Rental.LATE_RETURN_PENALTY_PERCENT
    let penalty := daily_penalty * (late_days : ℚ)
    { r1 with late_return_penalty := penalty,
              total_cost := r1.total_cost + penalty }
  else
    r1

/-- `Rental.cancel_rental`: only a completed rental is rejected; otherwise
the status becomes cancelled and the cost is zeroed. -/
def Rental.cancel (r : Rental) : Except RErr Rental :=
  if r.status = RentalStatus.completed then
    .error .cannotCancelCompleted
  else
    .ok { r with status := RentalStatus.cancelled, total_cost := 0 }

/-- The registry (`CarRentalSystem.__init__`): three id-keyed collections and
three id counters. -/
structure CarRentalSystem where
  vehicles : List Vehicule
  customers : List Customer
  rentals : List Rental
  next_vehicle_id : Nat
  next_customer_id : Nat
  next_rental_id : Nat
deriving DecidableEq, Repr

/-- The empty registry. -/
def CarRentalSystem.empty : CarRentalSystem :=
  { vehicles := [], customers := [], rentals := []
    next_vehicle_id := 1, next_customer_id := 1, next_rental_id := 1 }

/-- Dictionary lookup `self.vehicles[vehicle_id]`. -/
def CarRentalSystem.findVehicle (s : CarRentalSystem) (vehicle_id : Nat) : Option Vehicule :=
  s.vehicles.find? (fun v => decide (v.vehicle_id = vehicle_id))

/-- Dictionary lookup `self.customers[customer_id]`. -/
def CarRentalSystem.findCustomer (s : CarRentalSystem) (customer_id : Nat) : Option Customer :=
  s.customers.find? (fun c => decide (c.customer_id = customer_id))

/-- Dictionary lookup `self.rentals[rental_id]`. -/
def CarRentalSystem.findRental (s : CarRentalSystem) (rental_id : Nat) : Option Rental :=
  s.rentals.find? (fun r => decide (r.rental_id = rental_id))

/-- In-place mutation of the vehicle object shared between the registry and
the rentals that reference it. -/
def CarRentalSystem.updateVehicle (s : CarRentalSystem) (vehicle_id : Nat)
    (f : Vehicule → Vehicule) : CarRentalSystem :=
  { s with vehicles := s.vehicles.map (fun v => if v.vehicle_id = vehicle_id then f v else v) }

/-- In-place mutation of a customer object. -/
def CarRentalSystem.updateCustomer (s : CarRentalSystem) (customer_id : Nat)
    (f : Customer → Customer) : CarRentalSystem :=
  { s with customers := s.customers.map (fun c => if c.customer_id = customer_id then f c else c) }

/-- In-place mutation of a rental object. -/
def CarRentalSystem.updateRental (s : CarRentalSystem) (rental_id : Nat)
    (f : Rental → Rental) : CarRentalSystem :=
  { s with rentals := s.rentals.map (fun r => if r.rental_id = rental_id then f r else r) }

/-- Is there an Active rental on this vehicle in the registry?  (The loop of
the "orphaned `Rented` state" check in `create_rental`.) -/
def CarRentalSystem.hasActiveRentalOn (s : CarRentalSystem) (vehicle_id : Nat) : Bool :=
  s.rentals.any (fun r => decide (r.vehicle_id = vehicle_id ∧ r.status = RentalStatus.active))

/-- The overlap loop of `create_rental`: some Active rental on the vehicle
satisfies `start_date < rental.end_date and end_date > rental.start_date`. -/
def CarRentalSystem.overlapsActive (s : CarRentalSystem) (vehicle_id : Nat)
    (start_date end_date : Int) : Bool :=
  s.rentals.any (fun r => decide (r.vehicle_id = vehicle_id ∧ r.status = RentalStatus.active ∧
    start_date < r.end_date ∧ end_date > r.start_date))

/-- `CarRentalSystem.add_vehicle`.  Note the source increments
`next_vehicle_id` *before* dispatching on the category, so the unknown
category error leaves the counter already incremented.  The `kwargs`
defaults (`num_doors=4`, `fuel_type='petrol'`, `payload_capacity=5.0`,
`engine_cc=600`) are passed explicitly here. -/
def CarRentalSystem.add_vehicle (s : CarRentalSystem) (brand model category : String)
    (daily_rate : ℚ) (num_doors : Nat) (fuel_type : String) (payload_capacity : ℚ)
    (engine_cc : Nat) : CarRentalSystem × Except RErr Vehicule :=
  let vehicle_id := s.next_vehicle_id
  let s1 := { s with next_vehicle_id := s.next_vehicle_id + 1 }
  let store (kind : VehicleKind) : CarRentalSystem × Except RErr Vehicule :=
    let v : Vehicule :=
      { vehicle_id := vehicle_id, brand := brand, model := model, category := category
        daily_rate := daily_rate, state := .available, rental_count := 0, kind := kind }
    ({ s1 with vehicles := s1.vehicles ++ [v] }, .ok v)
  if category = "car" ∨ category = "van" then
    store (.car num_doors fuel_type)
  else if category = "truck" then
    store (.truck payload_capacity)
  else if category = "bike" ∨ category = "scooter" then
    store (.motorcycle engine_cc)
  else
    (s1, .error (.unknownCategory category))

/-- `CarRentalSystem.add_customer`. -/
def CarRentalSystem.add_customer (s : CarRentalSystem) (first_name last_name : String)
    (age : Nat) (license_type : String) : CarRentalSystem × Customer :=
  let customer_id := s.next_customer_id
  let c : Customer :=
    { customer_id := customer_id, first_name := first_name, last_name := last_name
      age := age, license_type := license_type, rental_history := [], total_spent := 0 }
  ({ s with next_customer_id := s.next_customer_id + 1, customers := s.customers ++ [c] }, c)

/-- `CarRentalSystem.create_rental`: the validation chain in source order —
resolve customer and vehicle, the maintenance check, the orphaned-`Rented`
check, eligibility, date sanity, the overlap loop; then allocate the id,
construct the rental, store it and mark the vehicle rented. -/
def CarRentalSystem.create_rental (s : CarRentalSystem) (customer_id vehicle_id : Nat)
    (start_date end_date : Int) : CarRentalSystem × Except RErr Rental :=
  match s.findCustomer customer_id with
  | none => (s, .error (.customerNotFound customer_id))
  | some customer =>
    match s.findVehicle vehicle_id with
    | none => (s, .error (.vehicleNotFound vehicle_id))
    | some vehicle =>
      if vehicle.state = VehicleState.maintenance then
        (s, .error (.vehicleNotAvailable vehicle_id))
      else if vehicle.state = VehicleState.rented ∧ s.hasActiveRentalOn vehicle_id = false then
        (s, .error (.vehicleNotAvailable vehicle_id))
      else if customer.can_rent_vehicle vehicle = false then
        (s, .error (.cannotRent customer_id))
      else if end_date ≤ start_date then
        (s, .error .startNotBeforeEnd)
      else if s.overlapsActive vehicle_id start_date end_date then
        (s, .error (.alreadyReserved vehicle_id))
      else
        let rental_id := s.next_rental_id
        let s1 := { s with next_rental_id := s.next_rental_id + 1 }
        match Rental.init rental_id customer_id vehicle_id vehicle.daily_rate
            start_date end_date with
        | .error e => (s1, .error e)
        | .ok rental =>
          let s2 := { s1 with rentals := s1.rentals ++ [rental] }
          let s3 := s2.updateVehicle vehicle_id (fun v => v.set_state .rented)
          (s3, .ok rental)

/-- `CarRentalSystem.complete_rental`: resolve the rental (error if absent),
then `Rental.complete_rental` runs unconditionally: it mutates the rental,
increments the vehicle's counter, sets the vehicle Available (the registry
sets it Available once more) and appends the rental to the customer's
history, adding its (final) cost to `total_spent`.  The rental's vehicle
reference is resolved through the registry; every rental the engine builds
resolves. -/
def CarRentalSystem.complete_rental (s : CarRentalSystem) (rental_id : Nat)
    (actual_return_date : Int) : CarRentalSystem × Except RErr Unit :=
  match s.findRental rental_id with
  | none => (s, .error (.rentalNotFound rental_id))
  | some r =>
    match s.findVehicle r.vehicle_id with
    | none => (s, .error (.vehicleNotFound r.vehicle_id))
    | some v =>
      let r2 := r.complete v.daily_rate actual_return_date
      let s1 := s.updateRental rental_id (fun _ => r2)
      let s2 := s1.updateVehicle r.vehicle_id
        (fun v => (v.increment_rental_count).set_state .available)
      let s3 := s2.updateCustomer r.customer_id
        (fun c => { c with rental_history := c.rental_history ++ [r2.rental_id],
                           total_spent := c.total_spent + r2.total_cost })
      (s3, .ok ())

/-- `CarRentalSystem.cancel_rental`: resolve, delegate to
`Rental.cancel_rental` (whose raise leaves the registry untouched), then set
the vehicle Available. -/
def CarRentalSystem.cancel_rental (s : CarRentalSystem) (rental_id : Nat) :
    CarRentalSystem × Except RErr Unit :=
  match s.findRental rental_id with
  | none => (s, .error (.rentalNotFound rental_id))
  | some r =>
    match r.cancel with
    | .error e => (s, .error e)
    | .ok r2 =>
      let s1 := s.updateRental rental_id (fun _ => r2)
      let s2 := s1.updateVehicle r.vehicle_id (fun v => v.set_state .available)
      (s2, .ok ())

/-- `CarRentalSystem.get_completed_rentals`. -/
def CarRentalSystem.get_completed_rentals (s : CarRentalSystem) : List Rental :=
  s.rentals.filter (fun r => decide (r.status = RentalStatus.completed))

/-- The record returned by `generate_revenue_report`. -/
structure RevenueReport where
  total_revenue : ℚ
  total_rentals : Nat
  average_rental_value : ℚ
  total_penalties : ℚ
  base_revenue : ℚ
deriving DecidableEq, Repr

/-- `CarRentalSystem.generate_revenue_report`: the empty completed set is
special-cased to the all-zero record before any division happens. -/
def CarRentalSystem.generate_revenue_report (s : CarRentalSystem) : RevenueReport :=
  let completed := s.get_completed_rentals
  if completed.isEmpty then
    { total_revenue := 0, total_rentals := 0, average_rental_value := 0
      total_penalties := 0, base_revenue := 0 }
  else
    let total_revenue := (completed.map (fun r => r.total_cost)).sum
    let total_penalties := (completed.map (fun r => r.late_return_penalty)).sum
    let average_value := total_revenue / (completed.length : ℚ)
    { total_revenue := total_revenue, total_rentals := completed.length
      average_rental_value := average_value, total_penalties := total_penalties
      base_revenue := total_revenue - total_penalties }

/-- Python truthiness of an optional string argument (`if brand:`):
`None` and the empty string are falsy. -/
def truthyStr : Option String → Bool
  | none => false
  | some t => t ≠ ""

/-- Python truthiness of an optional numeric argument (`if max_price:`):
`None` and `0` are falsy. -/
def truthyQ : Option ℚ → Bool
  | none => false
  | some q => q ≠ 0

/-- Python truthiness of an optional integer argument (`if min_rentals:`). -/
def truthyN : Option Nat → Bool
  | none => false
  | some n => n ≠ 0

/-- `CarRentalSystem.search_vehicles`: each filter applies only when its
argument is truthy. -/
def CarRentalSystem.search_vehicles (s : CarRentalSystem) (brand category : Option String)
    (max_price : Option ℚ) (available_only : Bool) : List Vehicule :=
  let results := s.vehicles
  let results := if available_only then results.filter (fun v => v.is_available) else results
  let results :=
    match brand with
    | some b => if b ≠ "" then results.filter (fun v => v.brand.toLower = b.toLower) else results
    | none => results
  let results :=
    match category with
    | some c => if c ≠ "" then results.filter (fun v => v.category.toLower = c.toLower)
                else results
    | none => results
  let results :=
    match max_price with
    | some p => if p ≠ 0 then results.filter (fun v => v.daily_rate ≤ p) else results
    | none => results
  results

/-- `CarRentalSystem.search_customers`. -/
def CarRentalSystem.search_customers (s : CarRentalSystem) (last_name : Option String)
    (min_rentals : Option Nat) : List Customer :=
  let results := s.customers
  let results :=
    match last_name with
    | some t => if t ≠ "" then results.filter (fun c => c.last_name.toLower = t.toLower)
                else results
    | none => results
  let results :=
    match min_rentals with
    | some n => if n ≠ 0 then results.filter (fun c => n ≤ c.get_rental_count) else results
    | none => results
  results

/-- The kind payload a vehicle of each recognised category carries when it
was built by `add_vehicle` (subclass dispatch and category string agree). -/
def kindMatchesCategory (v : Vehicule) : Prop :=
  ((v.category = "car" ∨ v.category = "van") → ∃ nd ft, v.kind = VehicleKind.car nd ft) ∧
  (v.category = "truck" → ∃ pc, v.kind = VehicleKind.truck pc) ∧
  ((v.category = "bike" ∨ v.category = "scooter") → ∃ ec, v.kind = VehicleKind.motorcycle ec)

/-! Concrete fixtures used by witnesses and counterexamples. -/

/-- A small available car. -/
def demoCar : Vehicule :=
  { vehicle_id := 1, brand := "Toyota", model := "Yaris", category := "car"
    daily_rate := 50, state := .available, rental_count := 0, kind := .car 4 "petrol" }

/-- An adult customer with a light ("B") license. -/
def demoCustomer : Customer :=
  { customer_id := 1, first_name := "Alice", last_name := "Smith", age := 25
    license_type := "B", rental_history := [], total_spent := 0 }

/-- An Active rental of `demoCar` by `demoCustomer` over hours `[0, 48)`. -/
def demoActiveRental : Rental :=
  { rental_id := 1, customer_id := 1, vehicle_id := 1, start_date := 0, end_date := 48
    actual_return_date := none, status := .active, total_cost := 100
    late_return_penalty := 0 }

/-- A registry holding `demoCar` (rented) with its Active rental. -/
def demoSysActive : CarRentalSystem :=
  { vehicles := [{ demoCar with state := .rented }], customers := [demoCustomer]
    rentals := [demoActiveRental]
    next_vehicle_id := 2, next_customer_id := 2, next_rental_id := 2 }

/-- A registry whose only vehicle is in Maintenance. -/
def demoSysMaint : CarRentalSystem :=
  { vehicles := [{ demoCar with state := .maintenance }], customers := [demoCustomer]
    rentals := [], next_vehicle_id := 2, next_customer_id := 2, next_rental_id := 1 }

/-- A registry whose only vehicle is marked Rented with no Active rental
record (the stale/orphaned state of the source comment, reachable through
`set_state`). -/
def demoSysStale : CarRentalSystem :=
  { vehicles := [{ demoCar with state := .rented }], customers := [demoCustomer]
    rentals := [], next_vehicle_id := 2, next_customer_id := 2, next_rental_id := 1 }

/-- A registry whose only vehicle is in the Reserved state. -/
def demoSysReserved : CarRentalSystem :=
  { vehicles := [{ demoCar with state := .reserved }], customers := [demoCustomer]
    rentals := [], next_vehicle_id := 2, next_customer_id := 2, next_rental_id := 1 }

/-- C1 scenario, step 1: add a car to the empty registry. -/
def c1Sys1 : CarRentalSystem :=
  (CarRentalSystem.empty.add_vehicle "Toyota" "Yaris" "car" 50 4 "petrol" 5 600).1

/-- C1 scenario, step 2: add a customer. -/
def c1Sys2 : CarRentalSystem := (c1Sys1.add_customer "Alice" "Smith" 25 "B").1

/-- C1 scenario, step 3: rent the car for hours `[0, 48)`. -/
def c1Sys3 : CarRentalSystem := (c1Sys2.create_rental 1 1 0 48).1

/-- C1 scenario, step 4: cancel the rental — rental 1 is now terminal
(Cancelled) and the car is Available again. -/
def c1Sys4 : CarRentalSystem := (c1Sys3.cancel_rental 1).1

/-- A cancelled rental, as stored in `c1Sys4`. -/
def c1CancelledRental : Rental :=
  { rental_id := 1, customer_id := 1, vehicle_id := 1, start_date := 0, end_date := 48
    actual_return_date := none, status := .cancelled, total_cost := 0
    late_return_penalty := 0 }

/-- A registry holding `demoCar` and the cancelled rental. -/
def c1SysCancelled : CarRentalSystem :=
  { vehicles := [demoCar], customers := [demoCustomer], rentals := [c1CancelledRental]
    next_vehicle_id := 2, next_customer_id := 2, next_rental_id := 2 }

/-! ## Theorems -/

/-- `daysBetween` of a positive span is non-negative. -/
lemma daysBetween_nonneg {a b : Int} (h : a ≤ b) : 0 ≤ daysBetween a b :=
  Int.fdiv_nonneg (by omega) (by norm_num)

/-- C2: a rental accepted at creation (end after start) has initial
`total_cost` equal to the daily rate times `max 1 (wholeDaysBetween start
end)`; a zero-whole-day duration is billed as one day. -/
theorem initial_total_cost_eq (rental_id customer_id vehicle_id : Nat) (daily_rate : ℚ)
    (start_date end_date : Int) (h : start_date < end_date) :
    ∃ r, Rental.init rental_id customer_id vehicle_id daily_rate start_date end_date = .ok r ∧
      r.total_cost = daily_rate * ((max 1 (daysBetween start_date end_date) : Int) : ℚ) := by
  rw [Rental.init, if_neg (by omega)]
  refine ⟨_, rfl, ?_⟩
  show Rental.calculate_total_cost daily_rate start_date end_date = _
  have hd : 0 ≤ daysBetween start_date end_date := daysBetween_nonneg h.le
  rw [Rental.calculate_total_cost]
  have : (if daysBetween start_date end_date = 0 then 1 else daysBetween start_date end_date)
      = max 1 (daysBetween start_date end_date) := by
    split_ifs with h0 <;> omega
  simp only [this]

/-- C2 witness: a two-day rental at rate 50 is accepted with the stated
cost. -/
theorem initial_total_cost_eq_witness :
    ∃ r, Rental.init 1 1 1 50 0 48 = .ok r ∧
      r.total_cost = 50 * ((max 1 (daysBetween 0 48) : Int) : ℚ) :=
  initial_total_cost_eq 1 1 1 50 0 48 (by decide)

/-- C3: completing an Active rental (whose penalty is still 0) records a
penalty of `wholeDaysBetween(end, actual) * rate * 0.5` and adds it to the
total cost when the return is strictly late; otherwise the penalty stays 0
and the total cost is unchanged. -/
theorem late_penalty_on_completion (r : Rental) (daily_rate : ℚ) (actual : Int)
    (_hact : r.status = RentalStatus.active) (hpen : r.late_return_penalty = 0) :
    (r.end_date < actual →
      (r.complete daily_rate actual).late_return_penalty
          = ((daysBetween r.end_date actual : Int) : ℚ) * daily_rate * (1 / 2) ∧
      (r.complete daily_rate actual).total_cost
          = r.total_cost + (r.complete daily_rate actual).late_return_penalty) ∧
    (¬ r.end_date < actual →
      (r.complete daily_rate actual).late_return_penalty = 0 ∧
      (r.complete daily_rate actual).total_cost = r.total_cost) := by
  constructor
  · intro h
    rw [Rental.complete, if_pos h]
    simp only [Rental.LATE_RETURN_PENALTY_PERCENT]
    constructor
    · ring
    · ring_nf
  · intro h
    rw [Rental.complete, if_neg h]
    exact ⟨hpen, rfl⟩

/-- C3 witness: an on-time return of an active penalty-free rental leaves
cost and penalty unchanged. -/
theorem late_penalty_on_completion_witness :
    let r : Rental :=
      { rental_id := 1, customer_id := 1, vehicle_id := 1, start_date := 0, end_date := 48
        actual_return_date := none, status := RentalStatus.active
        total_cost := 100, late_return_penalty := 0 }
    (r.end_date < 100 →
      (r.complete 50 100).late_return_penalty
          = ((daysBetween r.end_date 100 : Int) : ℚ) * 50 * (1 / 2) ∧
      (r.complete 50 100).total_cost = r.total_cost + (r.complete 50 100).late_return_penalty) ∧
    (¬ r.end_date < 100 →
      (r.complete 50 100).late_return_penalty = 0 ∧
      (r.complete 50 100).total_cost = r.total_cost) :=
  late_penalty_on_completion _ 50 100 rfl rfl

/-- C8: with no completed rentals the revenue report is the all-zero record
(the division branch is never reached). -/
theorem revenue_report_empty (s : CarRentalSystem) (h : s.get_completed_rentals = []) :
    s.generate_revenue_report =
      { total_revenue := 0, total_rentals := 0, average_rental_value := 0
        total_penalties := 0, base_revenue := 0 } := by
  rw [CarRentalSystem.generate_revenue_report]
  simp [h]

/-- C8 witness: the empty registry. -/
theorem revenue_report_empty_witness :
    CarRentalSystem.empty.generate_revenue_report =
      { total_revenue := 0, total_rentals := 0, average_rental_value := 0
        total_penalties := 0, base_revenue := 0 } :=
  revenue_report_empty CarRentalSystem.empty rfl

/-- C9: `cancel_rental` rejects only a Completed rental; on an
already-Cancelled rental it succeeds again, leaving the status Cancelled and
the cost zero. -/
theorem cancel_terminal_rentals (r : Rental) :
    (r.status = RentalStatus.completed → r.cancel = .error .cannotCancelCompleted) ∧
    (r.status = RentalStatus.cancelled →
      ∃ r2, r.cancel = .ok r2 ∧ r2.status = RentalStatus.cancelled ∧ r2.total_cost = 0) := by
  constructor
  · intro h
    rw [Rental.cancel, if_pos h]
  · intro h
    rw [Rental.cancel, if_neg (by rw [h]; intro hc; cases hc)]
    exact ⟨_, rfl, rfl, rfl⟩

/-- C9 witness: a concrete cancelled rental cancels again successfully. -/
theorem cancel_terminal_rentals_witness :
    ∃ r2,
      Rental.cancel
        { rental_id := 1, customer_id := 1, vehicle_id := 1, start_date := 0, end_date := 48
          actual_return_date := none, status := RentalStatus.cancelled
          total_cost := 0, late_return_penalty := 0 } = .ok r2 ∧
      r2.status = RentalStatus.cancelled ∧ r2.total_cost = 0 :=
  (cancel_terminal_rentals _).2 rfl

/-- C10: a zero `max_price` disables the vehicle price filter exactly like
omitting it, and a zero `min_rentals` disables the customer filter exactly
like omitting it. -/
theorem zero_threshold_disables_filter (s : CarRentalSystem)
    (brand category : Option String) (available_only : Bool) (last_name : Option String) :
    s.search_vehicles brand category (some 0) available_only
        = s.search_vehicles brand category none available_only ∧
    s.search_customers last_name (some 0) = s.search_customers last_name none := by
  constructor
  · simp [CarRentalSystem.search_vehicles]
  · simp [CarRentalSystem.search_customers]

/-- C7: for vehicles whose subclass matches their category (as `add_vehicle`
builds them), `can_rent_vehicle` holds exactly when the category-specific
minimum age (car/van 17, truck 21, bike/scooter 18) and the license mapping
(car/van: B or C; truck: C; bike/scooter: A) are both satisfied; for any
unrecognised category it is false. -/
theorem can_rent_vehicle_iff (c : Customer) (v : Vehicule) :
    (kindMatchesCategory v →
      (c.can_rent_vehicle v = true ↔
        ((v.category = "car" ∨ v.category = "van") ∧ Car.MIN_AGE ≤ c.age ∧
          (c.license_type = Customer.CAR ∨ c.license_type = Customer.TRUCK)) ∨
        (v.category = "truck" ∧ Truck.MIN_AGE ≤ c.age ∧
          c.license_type = Customer.TRUCK) ∨
        ((v.category = "bike" ∨ v.category = "scooter") ∧ Motorcycle.MIN_AGE ≤ c.age ∧
          c.license_type = Customer.MOTORCYCLE))) ∧
    (v.category ∉ (["car", "van", "truck", "bike", "scooter"] : List String) →
      c.can_rent_vehicle v = false) := by
  constructor
  · rintro ⟨hcar, htruck, hbike⟩
    by_cases h1 : v.category = "car" ∨ v.category = "van"
    · obtain ⟨nd, ft, hk⟩ := hcar h1
      rcases h1 with h1 | h1 <;>
        by_cases hage : Car.MIN_AGE ≤ c.age <;>
          simp [Customer.can_rent_vehicle, Vehicule.is_eligible_for_customer, hk, h1, hage]
    · by_cases h2 : v.category = "truck"
      · obtain ⟨pc, hk⟩ := htruck h2
        by_cases hage : Truck.MIN_AGE ≤ c.age <;>
          simp [Customer.can_rent_vehicle, Vehicule.is_eligible_for_customer, hk, h2, h1, hage]
      · by_cases h3 : v.category = "bike" ∨ v.category = "scooter"
        · obtain ⟨ec, hk⟩ := hbike h3
          rcases h3 with h3 | h3 <;>
            by_cases hage : Motorcycle.MIN_AGE ≤ c.age <;>
              simp [Customer.can_rent_vehicle, Vehicule.is_eligible_for_customer, hk, h3,
                h1, h2, hage]
        · simp [Customer.can_rent_vehicle, h1, h2, h3]
  · intro hu
    simp only [List.mem_cons, List.not_mem_nil, or_false, not_or] at hu
    obtain ⟨h1, h2, h3, h4, h5⟩ := hu
    simp [Customer.can_rent_vehicle, h1, h2, h3, h4, h5]

/-- C7 witness: the 25-year-old B-license customer can rent the car. -/
theorem can_rent_vehicle_iff_witness :
    demoCustomer.can_rent_vehicle demoCar = true := by
  have h := (can_rent_vehicle_iff demoCustomer demoCar).1
    (by refine ⟨fun _ => ⟨4, "petrol", rfl⟩, fun h => ?_, fun h => ?_⟩ <;> simp [demoCar] at h)
  exact h.mpr (Or.inl ⟨Or.inl rfl, by decide, Or.inl rfl⟩)

/-- C6 counterexample: the availability gate is not "state must be
Available" — a vehicle in the Reserved state (not Available) passes both
availability checks and its rental request is accepted. -/
theorem reserved_vehicle_rental_accepted :
    (({ demoCar with state := .reserved } : Vehicule).state ≠ VehicleState.available) ∧
    (demoSysReserved.create_rental 1 1 0 48).2.map (fun r => r.rental_id) = .ok 1 := by
  decide

/-- C6 amended: `create_rental` rejects (with the availability error and an
unchanged registry) a vehicle in Maintenance, and a vehicle marked Rented
without a corresponding Active rental record, before any later check — but
not every non-Available vehicle: a Reserved vehicle, or a Rented vehicle
with an Active rental record, passes the availability checks. -/
theorem create_rental_rejects_unavailable (s : CarRentalSystem) (cid vid : Nat)
    (sd ed : Int) (c : Customer) (v : Vehicule)
    (hc : s.findCustomer cid = some c) (hv : s.findVehicle vid = some v) :
    (v.state = VehicleState.maintenance →
      s.create_rental cid vid sd ed = (s, .error (.vehicleNotAvailable vid))) ∧
    (v.state = VehicleState.rented → s.hasActiveRentalOn vid = false →
      s.create_rental cid vid sd ed = (s, .error (.vehicleNotAvailable vid))) := by
  constructor
  · intro h
    simp only [CarRentalSystem.create_rental, hc, hv]
    rw [if_pos h]
  · intro h hs
    simp only [CarRentalSystem.create_rental, hc, hv]
    rw [if_neg (by rw [h]; simp), if_pos ⟨h, hs⟩]

/-- C6 witness: the maintenance vehicle and the stale rented vehicle are
both rejected with the availability error. -/
theorem create_rental_rejects_unavailable_witness :
    demoSysMaint.create_rental 1 1 0 48 = (demoSysMaint, .error (.vehicleNotAvailable 1)) ∧
    demoSysStale.create_rental 1 1 0 48 = (demoSysStale, .error (.vehicleNotAvailable 1)) :=
  ⟨(create_rental_rejects_unavailable demoSysMaint 1 1 0 48 demoCustomer
      ({ demoCar with state := .maintenance }) rfl rfl).1 rfl,
   (create_rental_rejects_unavailable demoSysStale 1 1 0 48 demoCustomer
      ({ demoCar with state := .rented }) rfl rfl).2 rfl rfl⟩

/-- The overlap loop fires exactly when some Active rental on the vehicle
overlaps the requested half-open window. -/
lemma overlapsActive_eq_true_iff (s : CarRentalSystem) (vehicle_id : Nat)
    (start_date end_date : Int) :
    s.overlapsActive vehicle_id start_date end_date = true ↔
      ∃ r ∈ s.rentals, r.vehicle_id = vehicle_id ∧ r.status = RentalStatus.active ∧
        start_date < r.end_date ∧ end_date > r.start_date := by
  simp [CarRentalSystem.overlapsActive, List.any_eq_true]

/-- C4: once the earlier checks pass (both ids resolve, the vehicle is not
in Maintenance nor stale-Rented, the customer is eligible, the dates are
sane), `create_rental` fails with the overlap error exactly when some Active
rental on the vehicle satisfies `start < other.end ∧ end > other.start`, and
is accepted whenever the requested window is fully before or fully after
every Active window on that vehicle. -/
theorem create_rental_overlap_iff (s : CarRentalSystem) (cid vid : Nat)
    (sd ed : Int) (c : Customer) (v : Vehicule)
    (hc : s.findCustomer cid = some c) (hv : s.findVehicle vid = some v)
    (hm : v.state ≠ VehicleState.maintenance)
    (hstale : v.state = VehicleState.rented → s.hasActiveRentalOn vid = true)
    (he : c.can_rent_vehicle v = true)
    (hd : sd < ed) :
    ((s.create_rental cid vid sd ed).2 = .error (.alreadyReserved vid) ↔
      ∃ r ∈ s.rentals, r.vehicle_id = vid ∧ r.status = RentalStatus.active ∧
        sd < r.end_date ∧ ed > r.start_date) ∧
    ((∀ r ∈ s.rentals, r.vehicle_id = vid → r.status = RentalStatus.active →
        r.end_date ≤ sd ∨ ed ≤ r.start_date) →
      ∃ rr, (s.create_rental cid vid sd ed).2 = .ok rr) := by
  have hnotstale : ¬(v.state = VehicleState.rented ∧ s.hasActiveRentalOn vid = false) := by
    rintro ⟨h1, h2⟩
    rw [hstale h1] at h2
    cases h2
  have hne : ¬(c.can_rent_vehicle v = false) := by rw [he]; simp
  have hdd : ¬(ed ≤ sd) := by omega
  by_cases ho : s.overlapsActive vid sd ed = true
  · have hres : s.create_rental cid vid sd ed = (s, .error (.alreadyReserved vid)) := by
      simp only [CarRentalSystem.create_rental, hc, hv]
      rw [if_neg hm, if_neg hnotstale, if_neg hne, if_neg hdd, if_pos ho]
    rw [hres]
    constructor
    · simp only [true_iff]
      exact (overlapsActive_eq_true_iff s vid sd ed).mp ho
    · intro hnone
      exfalso
      obtain ⟨r, hr, h1, h2, h3, h4⟩ := (overlapsActive_eq_true_iff s vid sd ed).mp ho
      rcases hnone r hr h1 h2 with h5 | h5 <;> omega
  · have hinit : Rental.init s.next_rental_id cid vid v.daily_rate sd ed =
        .ok { rental_id := s.next_rental_id, customer_id := cid, vehicle_id := vid
              start_date := sd, end_date := ed, actual_return_date := none
              status := .active
              total_cost := Rental.calculate_total_cost v.daily_rate sd ed
              late_return_penalty := 0 } := by
      rw [Rental.init, if_neg hdd]
    have hres : (s.create_rental cid vid sd ed).2 =
        .ok { rental_id := s.next_rental_id, customer_id := cid, vehicle_id := vid
              start_date := sd, end_date := ed, actual_return_date := none
              status := .active
              total_cost := Rental.calculate_total_cost v.daily_rate sd ed
              late_return_penalty := 0 } := by
      simp only [CarRentalSystem.create_rental, hc, hv]
      rw [if_neg hm, if_neg hnotstale, if_neg hne, if_neg hdd, if_neg ho]
      simp only [hinit]
    constructor
    · rw [hres]
      constructor
      · intro h
        cases h
      · intro hex
        exact absurd ((overlapsActive_eq_true_iff s vid sd ed).mpr hex) ho
    · intro _
      exact ⟨_, hres⟩

/-- C4 witness: on the registry with an Active rental over `[0, 48)`, a
request for `[48, 96)` is not an overlap error and is accepted, and the
overlap characterisation holds. -/
theorem create_rental_overlap_iff_witness :
    ((demoSysActive.create_rental 1 1 48 96).2 = .error (.alreadyReserved 1) ↔
      ∃ r ∈ demoSysActive.rentals, r.vehicle_id = 1 ∧ r.status = RentalStatus.active ∧
        (48 : Int) < r.end_date ∧ (96 : Int) > r.start_date) ∧
    ((∀ r ∈ demoSysActive.rentals, r.vehicle_id = 1 → r.status = RentalStatus.active →
        r.end_date ≤ (48 : Int) ∨ (96 : Int) ≤ r.start_date) →
      ∃ rr, (demoSysActive.create_rental 1 1 48 96).2 = .ok rr) :=
  create_rental_overlap_iff demoSysActive 1 1 48 96 demoCustomer
    ({ demoCar with state := .rented }) rfl rfl (by decide) (fun _ => by decide)
    (by decide) (by decide)

/-- `Rental.complete` keeps the rental id. -/
lemma Rental.complete_rental_id (r : Rental) (daily_rate : ℚ) (actual : Int) :
    (r.complete daily_rate actual).rental_id = r.rental_id := by
  unfold Rental.complete
  split <;> rfl

/-- `Rental.complete` always ends in the Completed status. -/
lemma Rental.complete_status (r : Rental) (daily_rate : ℚ) (actual : Int) :
    (r.complete daily_rate actual).status = RentalStatus.completed := by
  unfold Rental.complete
  split <;> rfl

/-- Replacing the found rental in the store makes the replacement the one
found afterwards. -/
lemma find?_update_rental (l : List Rental) (rid : Nat) (r r2 : Rental)
    (h : l.find? (fun x => decide (x.rental_id = rid)) = some r)
    (h2 : r2.rental_id = rid) :
    (l.map (fun x => if x.rental_id = rid then r2 else x)).find?
        (fun x => decide (x.rental_id = rid)) = some r2 := by
  induction l with
  | nil => simp at h
  | cons a t ih =>
    by_cases ha : a.rental_id = rid
    · simp only [List.map_cons, if_pos ha]
      rw [List.find?_cons_of_pos _ (by simp [h2])]
    · simp only [List.map_cons, if_neg ha]
      rw [List.find?_cons_of_neg _ (by simp [ha])]
      rw [List.find?_cons_of_neg _ (by simp [ha])] at h
      exact ih h

/-- C1 counterexample: through the public operations — add a car, add a
customer, rent `[0, 48)`, cancel — rental 1 is terminal (Cancelled), yet
`complete_rental` on it succeeds and overwrites the status to Completed. -/
theorem cancelled_rental_completes_ok :
    (c1Sys4.findRental 1).map Rental.status = some RentalStatus.cancelled ∧
    (c1Sys4.complete_rental 1 48).2 = .ok () ∧
    ((c1Sys4.complete_rental 1 48).1.findRental 1).map Rental.status
        = some RentalStatus.completed := by
  decide

/-- C1 amended: `complete_rental` performs no status check — whenever the
rental id resolves (and its vehicle reference resolves), the call succeeds,
storing the completed rental, whatever the prior status was. -/
theorem complete_rental_no_status_check (s : CarRentalSystem) (rid : Nat) (actual : Int)
    (r : Rental) (v : Vehicule)
    (hr : s.findRental rid = some r) (hv : s.findVehicle r.vehicle_id = some v) :
    (s.complete_rental rid actual).2 = .ok () ∧
    (s.complete_rental rid actual).1.findRental rid
        = some (r.complete v.daily_rate actual) ∧
    (r.complete v.daily_rate actual).status = RentalStatus.completed := by
  have hr2 : s.rentals.find? (fun x => decide (x.rental_id = rid)) = some r := hr
  have hrid : r.rental_id = rid := by
    have hfind := List.find?_some hr2
    simpa using hfind
  refine ⟨?_, ?_, Rental.complete_status r v.daily_rate actual⟩
  · simp only [CarRentalSystem.complete_rental, hr, hv]
  · simp only [CarRentalSystem.complete_rental, hr, hv]
    simp only [CarRentalSystem.findRental, CarRentalSystem.updateCustomer,
      CarRentalSystem.updateVehicle, CarRentalSystem.updateRental]
    exact find?_update_rental s.rentals rid r (r.complete v.daily_rate actual) hr2
      (by rw [Rental.complete_rental_id]; exact hrid)

/-- C1 witness: completing the stored cancelled rental succeeds. -/
theorem complete_rental_no_status_check_witness :
    (c1SysCancelled.complete_rental 1 48).2 = .ok () ∧
    (c1SysCancelled.complete_rental 1 48).1.findRental 1
        = some (c1CancelledRental.complete demoCar.daily_rate 48) ∧
    (c1CancelledRental.complete demoCar.daily_rate 48).status = RentalStatus.completed :=
  complete_rental_no_status_check c1SysCancelled 1 48 c1CancelledRental demoCar rfl rfl

/-- C5 counterexample: `add_vehicle` with the unrecognised category
`"plane"` fails, yet the vehicle id counter was already incremented — the
registry is not exactly as it was before the call. -/
theorem add_vehicle_unknown_category_increments_counter :
    (CarRentalSystem.empty.add_vehicle "Boeing" "747" "plane" 50 4 "petrol" 5 600).2
        = .error (.unknownCategory "plane") ∧
    (CarRentalSystem.empty.add_vehicle "Boeing" "747" "plane" 50 4 "petrol" 5 600).1.next_vehicle_id
        = 2 ∧
    CarRentalSystem.empty.next_vehicle_id = 1 := by
  decide

/-- C5 amended: every `create_rental` failure leaves the registry exactly as
it was, but `add_vehicle` with an unrecognised category, while adding
nothing to the mappings, returns with the vehicle id counter already
incremented. -/
theorem failure_state_mutation (s : CarRentalSystem) (cid vid : Nat) (sd ed : Int)
    (brand model category : String) (rate : ℚ) (nd : Nat) (ft : String) (pc : ℚ)
    (ec : Nat) :
    (∀ e : RErr, (s.create_rental cid vid sd ed).2 = .error e →
      (s.create_rental cid vid sd ed).1 = s) ∧
    (category ∉ (["car", "van", "truck", "bike", "scooter"] : List String) →
      s.add_vehicle brand model category rate nd ft pc ec =
        ({ s with next_vehicle_id := s.next_vehicle_id + 1 },
         .error (.unknownCategory category))) := by
  constructor
  · intro e he
    rcases hfc : s.findCustomer cid with _ | c
    · simp only [CarRentalSystem.create_rental, hfc]
    · rcases hfv : s.findVehicle vid with _ | v
      · simp only [CarRentalSystem.create_rental, hfc, hfv]
      · simp only [CarRentalSystem.create_rental, hfc, hfv] at he ⊢
        split_ifs at he ⊢ with h1 h2 h3 h4 h5
        · rfl
        · rfl
        · rfl
        · rfl
        · rfl
        · exfalso
          rw [Rental.init, if_neg h4] at he
          simp at he
  · intro hu
    simp only [List.mem_cons, List.not_mem_nil, or_false, not_or] at hu
    obtain ⟨h1, h2, h3, h4, h5⟩ := hu
    simp only [CarRentalSystem.add_vehicle]
    rw [if_neg (by tauto), if_neg h3, if_neg (by tauto)]

/-- C5 witness: the empty registry, an unknown category. -/
theorem failure_state_mutation_witness :
    CarRentalSystem.empty.add_vehicle "Boeing" "747" "plane" 50 4 "petrol" 5 600 =
      ({ CarRentalSystem.empty with
          next_vehicle_id := CarRentalSystem.empty.next_vehicle_id + 1 },
       .error (.unknownCategory "plane")) :=
  (failure_state_mutation CarRentalSystem.empty 1 1 0 48
    "Boeing" "747" "plane" 50 4 "petrol" 5 600).2 (by decide)
